import Mathlib

/-!
Verification of the label validation and signal-quality analysis engine of
the SeismicWavesVisualizer repository (src/src/data/data_loader.py,
src/src/ui/validation_window.py, src/src/ui/plot_widget.py).

Modelling conventions of the shallow embedding:
* Python floats are modelled as exact rationals (ℚ); absolute timestamps
  (obspy UTCDateTime) are modelled as rational epoch seconds, since the code
  only subtracts them to obtain float seconds.
* Python strings handled character-wise (lstrip, int parsing) are modelled
  as lists of characters; message strings are Lean strings.
* Fallible code (raised exceptions) is modelled with Option / Except:
  a `none` / `.error` result marks exactly the inputs where the Python code
  raises.
* numpy's mean of an empty array is NaN, and `NaN > 0` is false in Python;
  we model the empty mean as 0, which is observationally equivalent at the
  single place the value is consumed (the `noise_power > 0` branch test).
* The population standard deviation `np.std` is irrational in general, so
  the normalisation step takes the standard deviation as an explicit
  parameter `s`; theorems about it constrain `s` by `s * s = variance xs`.
-/

/-! ### Python string helpers (DataLoader.get_p_arrival, data_loader.py:165-182) -/

/-- Value of a digit string, as computed by Python's `int` on an
all-digit string. -/
def digitsVal (l : List Char) : ℕ :=
  l.foldl (fun n c => 10 * n + (c.toNat - 48)) 0

/-- Whether a character list is a nonempty run of decimal digits. -/
def isDigits (l : List Char) : Bool :=
  !l.isEmpty && l.all (fun c => c.isDigit)

/-- Model of Python's `int(s)` on the strings arising here: an optional
minus sign followed by at least one digit parses, everything else (in
particular the empty string) raises ValueError, modelled as `none`. -/
def pyInt? (l : List Char) : Option ℤ :=
  match l with
  | '-' :: rest => if isDigits rest then some (-(digitsVal rest : ℤ)) else none
  | _ => if isDigits l then some ((digitsVal l : ℤ)) else none

/-- Model of Python's `str.lstrip` with argument the single character zero:
remove every leading zero character (data_loader.py:172). -/
def stripLeadingZeros (l : List Char) : List Char :=
  l.dropWhile (fun c => c == '0')

/-- Decimal rendering of an integer file id, modelling Python's `str(file_id)`
inside `get_p_arrival`. -/
def pyStr (k : ℤ) : List Char :=
  (toString k).data

/-! ### Arrival lookup (DataLoader.get_p_arrival, data_loader.py:165-182)

The pandas label table `df` with columns `archivo` (integer file id) and
`lec_p` (numeric or NaN after `to_numeric(errors='coerce')`) is modelled as
an ordered association list; a `none` value models a NaN cell.  A dataframe
that was never loaded is the empty table (`load_csv` always installs an
empty frame on failure). -/

/-- Model of `DataLoader.get_p_arrival`: normalise the file id by stripping
leading zeros and parsing as an integer (a parse failure — the caught
ValueError — yields `none`), then look up the first row whose `archivo`
matches; a NaN `lec_p` cell yields `none`.  The function is total: a lookup
miss is an ordinary `none`, never an exception. -/
def getPArrival (tbl : List (ℤ × Option ℚ)) (file_id : List Char) : Option ℚ :=
  match pyInt? (stripLeadingZeros file_id) with
  | none => none
  | some k =>
    match tbl.find? (fun e => e.1 == k) with
    | none => none
    | some e => e.2

/-! ### Two-decimal formatting (Python f-string `:.2f`) -/

/-- Round a rational to the nearest integer, ties to even, as CPython's
float formatting does. -/
def roundHE (q : ℚ) : ℤ :=
  let f := ⌊q⌋
  let r := q - f
  if r < 1 / 2 then f
  else if 1 / 2 < r then f + 1
  else if f % 2 = 0 then f else f + 1

/-- Model of the Python format specifier `:.2f`: fixed-point with exactly
two fractional digits; a negative value that rounds to zero keeps its
sign, as CPython prints `-0.00`. -/
def format2f (q : ℚ) : String :=
  let n := roundHE (q * 100)
  let m := n.natAbs
  (if q < 0 then "-" else "") ++ Nat.repr (m / 100) ++ "." ++
    (if m % 100 < 10 then "0" else "") ++ Nat.repr (m % 100)

/-! ### Trace loading (DataLoader.load_mseed, data_loader.py:116-163) -/

/-- One decoded obspy trace: sample array, sampling rate and start time
(`tr.stats.npts` always equals the sample count). -/
structure TraceRec where
  data : List ℚ
  sampling_rate : ℚ
  starttime : ℚ
  deriving DecidableEq

/-- The record returned by `DataLoader.load_mseed` (the `stats` passthrough
field carries no analysis content and is omitted). -/
structure SignalData where
  data : List ℚ
  data_normalized : List ℚ
  times : List ℚ
  sampling_rate : ℚ
  start_time : ℚ
  deriving DecidableEq

/-- Arithmetic mean, `np.mean` (empty input: see header note). -/
def mean (xs : List ℚ) : ℚ :=
  xs.sum / xs.length

/-- Population variance, the square of `np.std`. -/
def variance (xs : List ℚ) : ℚ :=
  ((xs.map (fun x => (x - mean xs) ^ 2)).sum) / xs.length

/-- The normalisation step of `load_mseed` (data_loader.py:133-139), with
the standard deviation supplied as the parameter `s` (see header note):
center only when the standard deviation is zero, otherwise center and
divide. -/
def normData (xs : List ℚ) (s : ℚ) : List ℚ :=
  if s = 0 then xs.map (fun x => x - mean xs)
  else xs.map (fun x => (x - mean xs) / s)

/-- Time axis `np.arange(0, npts) / sampling_rate` (data_loader.py:148). -/
def timesAxis (npts : ℕ) (rate : ℚ) : List ℚ :=
  (List.range npts).map (fun i : ℕ => (i : ℚ) / rate)

/-- The IOError message wrapper of `load_mseed` (data_loader.py:160):
every exception is re-raised with the file name and the original cause. -/
def wrapLoadError (file_name cause : String) : String :=
  "Error loading MSEED file " ++ file_name ++ ": " ++ cause

/-- Model of `DataLoader.load_mseed`.  The decode collaborator `read` is
modelled by its outcome `r`: either a decode exception (with its message)
or the decoded list of traces.  Every raised exception — a decode failure,
an empty trace set, an empty first trace, or a non-positive sampling
rate — surfaces as `.error` wrapped with the file name and original cause,
exactly as the Python `except` block re-raises IOError. -/
def loadMseed (file_name : String) (s : ℚ) (r : Except String (List TraceRec)) :
    Except String SignalData :=
  match r with
  | .error e => .error (wrapLoadError file_name e)
  | .ok st =>
    match st with
    | [] => .error (wrapLoadError file_name "No traces found in MSEED file")
    | tr :: _ =>
      if tr.data.isEmpty then .error (wrapLoadError file_name "Empty trace data")
      else if tr.sampling_rate ≤ 0 then
        .error (wrapLoadError file_name
          ("Invalid sampling rate: " ++ toString tr.sampling_rate))
      else
        .ok { data := tr.data
              data_normalized := normData tr.data s
              times := timesAxis tr.data.length tr.sampling_rate
              sampling_rate := tr.sampling_rate
              start_time := tr.starttime }

/-! ### Label validation (DataLoader.validate_labels, data_loader.py:184-236) -/

/-- The validation dictionary, with the `details` sub-dictionary flattened
into the record. -/
structure ValidationResult where
  is_valid : Bool
  error : Option String
  file_id : List Char
  duration : ℚ
  p_arrival : Option ℚ
  relative_p_time : Option ℚ
  has_p_arrival : Bool
  deriving DecidableEq

/-- Model of `DataLoader.validate_labels`: compute the duration from the
loaded record, look up the arrival; a missing arrival is reported as valid
with an informational message, an arrival outside `[0, duration]` as
invalid with a formatted message, an arrival inside as valid with no
message. -/
def validateLabels (tbl : List (ℤ × Option ℚ)) (file_id : List Char)
    (sig : SignalData) : ValidationResult :=
  let duration : ℚ := (sig.data.length : ℚ) / sig.sampling_rate
  match getPArrival tbl file_id with
  | none =>
    { is_valid := true
      error := some "No P arrival time available"
      file_id := file_id
      duration := duration
      p_arrival := none
      relative_p_time := none
      has_p_arrival := false }
  | some p =>
    let rel := p - sig.start_time
    if rel < 0 ∨ rel > duration then
      { is_valid := false
        error := some ("P arrival time (" ++ format2f rel ++
          "s) outside signal duration (0 to " ++ format2f duration ++ "s)")
        file_id := file_id
        duration := duration
        p_arrival := some p
        relative_p_time := some rel
        has_p_arrival := true }
    else
      { is_valid := true
        error := none
        file_id := file_id
        duration := duration
        p_arrival := some p
        relative_p_time := some rel
        has_p_arrival := true }

/-! ### Batch validation runner
(ValidationWindow.analyze_next_file / finish_analysis, validation_window.py:200-273)

The per-file environment (filesystem existence check plus `load_mseed`
outcome) is a function from file id to an outcome: the path does not exist,
loading raised (caught and logged), or a record was loaded. -/

/-- Outcome of resolving and loading one file of the batch. -/
inductive LoadOutcome where
  | missing : LoadOutcome
  | failed : String → LoadOutcome
  | loaded : SignalData → LoadOutcome

/-- The mutable state threaded through `analyze_next_file`:
`validation_results` is the accumulated result list, `table_rows` the
number of rows added to the UI table (one per invalid result), and
`analyzed_files` the loop counter, incremented for every file whether or
not it loaded. -/
structure BatchState where
  validation_results : List ValidationResult
  table_rows : ℕ
  analyzed_files : ℕ

/-- One iteration of `analyze_next_file` for a single file id: a missing
path or a load failure is skipped (the exception is caught, nothing is
recorded) and never aborts the batch; a loaded record is validated,
appended to the results, and counted as a table row iff invalid. -/
def analyzeFile (tbl : List (ℤ × Option ℚ)) (env : ℤ → LoadOutcome)
    (st : BatchState) (file_id : ℤ) : BatchState :=
  match env file_id with
  | .missing => { st with analyzed_files := st.analyzed_files + 1 }
  | .failed _ => { st with analyzed_files := st.analyzed_files + 1 }
  | .loaded sig =>
    let vr := validateLabels tbl (pyStr file_id) sig
    { validation_results := st.validation_results ++ [vr]
      table_rows := st.table_rows + (if vr.is_valid then 0 else 1)
      analyzed_files := st.analyzed_files + 1 }

/-- The whole batch loop, started by `start_analysis` with fresh state and
driven over the enumerated file list in order. -/
def runBatch (tbl : List (ℤ × Option ℚ)) (env : ℤ → LoadOutcome)
    (files : List ℤ) : BatchState :=
  files.foldl (analyzeFile tbl env) ⟨[], 0, 0⟩

/-- The summary percentage of `finish_analysis`
(validation_window.py:269-273): `invalid_count / total_files * 100`.
Python raises ZeroDivisionError when `total_files = 0`; the raise is
modelled as `none`. -/
def summaryPct (invalid total : ℕ) : Option ℚ :=
  if total = 0 then none else some ((invalid : ℚ) / (total : ℚ) * 100)

/-- End-to-end batch summary: run the batch over the enumerated file list,
then form the percentage with `invalid_count` = the table row count and
`total_files` = the length of the enumerated list. -/
def batchSummary (tbl : List (ℤ × Option ℚ)) (env : ℤ → LoadOutcome)
    (files : List ℤ) : Option ℚ :=
  summaryPct (runBatch tbl env files).table_rows files.length

/-! ### Signal metrics (PlotWidget.calculate_metrics, plot_widget.py:242-265) -/

/-- Truncation toward zero, Python's `int()` on a float. -/
def ratTrunc (q : ℚ) : ℤ :=
  if 0 ≤ q then ⌊q⌋ else ⌈q⌉

/-- Resolution of one Python slice endpoint for a list of length `n`:
negative indices count from the end, and both ends clamp. -/
def pyIndex (n : ℕ) (i : ℤ) : ℕ :=
  if i < 0 then ((n : ℤ) + i).toNat else min i.toNat n

/-- Python list slicing `xs[a:b]` with unit step. -/
def pySlice {α : Type} (xs : List α) (a b : ℤ) : List α :=
  (xs.take (pyIndex xs.length b)).drop (pyIndex xs.length a)

/-- The reference sample index of `calculate_metrics`
(plot_widget.py:248): `int(p_arrival_time * sampling_rate)`. -/
def pSampleOf (t rate : ℚ) : ℤ :=
  ratTrunc (t * rate)

/-- The pre-arrival window `data[max(0, p_sample-500):p_sample]`
(plot_widget.py:251). -/
def noiseWindowOf (data : List ℚ) (t rate : ℚ) : List ℚ :=
  pySlice data (max 0 (pSampleOf t rate - 500)) (pSampleOf t rate)

/-- The post-arrival window `data[p_sample:min(len(data), p_sample+500)]`
(plot_widget.py:252). -/
def signalWindowOf (data : List ℚ) (t rate : ℚ) : List ℚ :=
  pySlice data (pSampleOf t rate) (min (data.length : ℤ) (pSampleOf t rate + 500))

/-- Mean square of the pre-arrival window, `np.mean(noise_window ** 2)`. -/
def noisePowerOf (data : List ℚ) (t rate : ℚ) : ℚ :=
  mean ((noiseWindowOf data t rate).map (fun x => x ^ 2))

/-- Mean square of the post-arrival window, `np.mean(signal_window ** 2)`. -/
def signalPowerOf (data : List ℚ) (t rate : ℚ) : ℚ :=
  mean ((signalWindowOf data t rate).map (fun x => x ^ 2))

/-- The SNR value of `calculate_metrics`: either the finite decibel value
`10 * log10(signal_power / noise_power)` — represented by the two powers,
whose decibel reading is `SnrVal.toDb` — or the sentinel `float('inf')`. -/
inductive SnrVal where
  | posInf : SnrVal
  | db : ℚ → ℚ → SnrVal
  deriving DecidableEq

/-- Decibel reading of an `SnrVal` on the extended real line:
`10 * log10(signal_power / noise_power)` in the finite case, `+∞` for the
sentinel. -/
noncomputable def SnrVal.toDb : SnrVal → EReal
  | .posInf => ⊤
  | .db sp np2 => ((10 * Real.logb 10 ((sp : ℝ) / (np2 : ℝ)) : ℝ) : EReal)

/-- Maximum absolute amplitude, `np.max(np.abs(data))` (0 on empty input,
where NumPy would raise — no claim exercises the empty case). -/
def maxAbs (l : List ℚ) : ℚ :=
  (l.map (fun x => |x|)).foldr max 0

/-- The tuple returned by `calculate_metrics`. -/
structure Metrics where
  max_amp : ℚ
  snr : Option SnrVal
  energy_before : Option ℚ
  energy_after : Option ℚ

/-- Model of `PlotWidget.calculate_metrics` (plot_widget.py:242-265):
always the maximum absolute amplitude; when a reference arrival time is
supplied, also the SNR (with the `float('inf')` sentinel when the noise
power is not positive) and the two window energies.  The function is
total: no input raises. -/
def calculateMetrics (data : List ℚ) (p_arrival_time : Option ℚ)
    (sampling_rate : ℚ) : Metrics :=
  match p_arrival_time with
  | none => ⟨maxAbs data, none, none, none⟩
  | some t =>
    ⟨maxAbs data,
     some (if 0 < noisePowerOf data t sampling_rate then
        SnrVal.db (signalPowerOf data t sampling_rate) (noisePowerOf data t sampling_rate)
      else SnrVal.posInf),
     some ((noiseWindowOf data t sampling_rate).map (fun x => x ^ 2)).sum,
     some ((signalWindowOf data t sampling_rate).map (fun x => x ^ 2)).sum⟩

/-- Spec-reading of the noise window formula
`samples[max(0, p_sample-500) : p_sample]` with mathematical clamped
nonnegative indices (natural subtraction truncates at zero).  Stated from
the spec's words, for comparison with the Python-slicing definition. -/
def specNoiseWindow (data : List ℚ) (p : ℕ) : List ℚ :=
  (data.take p).drop (p - 500)

/-- Spec-reading of the signal window formula
`samples[p_sample : min(length, p_sample+500)]` with mathematical clamped
nonnegative indices.  Stated from the spec's words, for comparison with
the Python-slicing definition. -/
def specSignalWindow (data : List ℚ) (p : ℕ) : List ℚ :=
  (data.drop p).take 500

/-- Whether a load outcome delivered a record (the file was "successfully
analyzed" in the spec's sense). -/
def isLoaded : LoadOutcome → Bool
  | .loaded _ => true
  | _ => false

/-- Concrete two-file batch environment: file 1's trace resource is
missing, file 2 loads a one-sample trace with unit sampling rate starting
at epoch 0. -/
def envTwoFiles : ℤ → LoadOutcome := fun k =>
  if k = 2 then LoadOutcome.loaded ⟨[0], [0], [0], 1, 0⟩ else LoadOutcome.missing

/-! ## Claims -/

/-- C1: For every file id and loaded trace, when the label table has no
arrival for that id, `validate_labels` returns `is_valid = true`,
`error = "No P arrival time available"`, and `has_p_arrival = false`,
regardless of trace content; absence of a label is never reported as a
validation failure. -/
theorem validateLabels_no_label (tbl : List (ℤ × Option ℚ)) (fid : List Char)
    (sig : SignalData) (h : getPArrival tbl fid = none) :
    (validateLabels tbl fid sig).is_valid = true ∧
    (validateLabels tbl fid sig).error = some "No P arrival time available" ∧
    (validateLabels tbl fid sig).has_p_arrival = false := by
  simp [validateLabels, h]

/-- Witness for C1: the empty label table has no arrival for file id 42,
and validation of a concrete trace reports the informational non-error
state. -/
theorem validateLabels_no_label_witness :
    (validateLabels [] ['4', '2'] ⟨[1], [1], [0], 1, 0⟩).is_valid = true ∧
    (validateLabels [] ['4', '2'] ⟨[1], [1], [0], 1, 0⟩).error =
      some "No P arrival time available" ∧
    (validateLabels [] ['4', '2'] ⟨[1], [1], [0], 1, 0⟩).has_p_arrival = false :=
  validateLabels_no_label [] ['4', '2'] ⟨[1], [1], [0], 1, 0⟩ rfl

/-- C2: For every trace and every present arrival label, `validate_labels`
returns `is_valid = true` with `error = none` exactly when
`0 ≤ relative_p_time ≤ duration` (both endpoints inclusive, with
`relative_p_time = arrival - start_time` and
`duration = length / sampling_rate`); outside that window it returns
`is_valid = false` with the error string containing the relative time and
the window bounds formatted to two decimal places. -/
theorem validateLabels_window (tbl : List (ℤ × Option ℚ)) (fid : List Char)
    (sig : SignalData) (p : ℚ) (h : getPArrival tbl fid = some p) :
    ((validateLabels tbl fid sig).is_valid = true ∧
        (validateLabels tbl fid sig).error = none ↔
      0 ≤ p - sig.start_time ∧
        p - sig.start_time ≤ (sig.data.length : ℚ) / sig.sampling_rate) ∧
    (p - sig.start_time < 0 ∨
        (sig.data.length : ℚ) / sig.sampling_rate < p - sig.start_time →
      (validateLabels tbl fid sig).is_valid = false ∧
        (validateLabels tbl fid sig).error =
          some ("P arrival time (" ++ format2f (p - sig.start_time) ++
            "s) outside signal duration (0 to " ++
            format2f ((sig.data.length : ℚ) / sig.sampling_rate) ++ "s)")) := by
  by_cases hc : p - sig.start_time < 0 ∨
      (sig.data.length : ℚ) / sig.sampling_rate < p - sig.start_time
  · constructor
    · simp only [validateLabels, h]
      rw [if_pos (by exact hc.imp id id)]
      constructor
      · rintro ⟨hv, -⟩; exact absurd hv (by simp)
      · rintro ⟨h0, h1⟩
        rcases hc with hc | hc
        · exact absurd h0 (not_le.mpr hc)
        · exact absurd h1 (not_le.mpr hc)
    · intro _
      simp only [validateLabels, h]
      rw [if_pos (by exact hc.imp id id)]
      exact ⟨rfl, rfl⟩
  · push_neg at hc
    constructor
    · simp only [validateLabels, h]
      rw [if_neg (by push_neg; exact ⟨not_lt.mp (not_lt.mpr hc.1), hc.2⟩)]
      simp [hc.1, hc.2]
    · intro hcontra
      exact absurd hcontra (by push_neg; exact ⟨hc.1, hc.2⟩)

/-- Witness for C2: file 7 has arrival at epoch 10 but the trace starting
at 0 lasts only 2 seconds, so validation fails with the formatted message;
the bound 10 > 2 is discharged concretely. -/
theorem validateLabels_window_witness :
    (validateLabels [(7, some 10)] ['7'] ⟨[1, 1], [0, 0], [0, 1], 1, 0⟩).is_valid
        = false ∧
    (validateLabels [(7, some 10)] ['7'] ⟨[1, 1], [0, 0], [0, 1], 1, 0⟩).error =
      some ("P arrival time (" ++ format2f ((10 : ℚ) - 0) ++
        "s) outside signal duration (0 to " ++ format2f (((2 : ℕ) : ℚ) / 1) ++
        "s)") :=
  (validateLabels_window [(7, some 10)] ['7'] ⟨[1, 1], [0, 0], [0, 1], 1, 0⟩ 10
    (by decide)).2 (by norm_num)

/-- C8: Arrival lookup normalizes the identifier by stripping leading
zeros and parsing it as an integer key; it returns an absent result (it is
a total function, never an exception) when the table is empty (no table
loaded), when the parse fails, or when the key is not present, and
otherwise returns the stored `lec_p` cell of the first matching row — the
stored timestamp when numeric, absent when the cell is NaN. -/
theorem getPArrival_cases (tbl : List (ℤ × Option ℚ)) (fid : List Char) :
    (getPArrival [] fid = none) ∧
    (pyInt? (stripLeadingZeros fid) = none → getPArrival tbl fid = none) ∧
    (∀ k : ℤ, pyInt? (stripLeadingZeros fid) = some k →
      (tbl.find? (fun e => e.1 == k) = none → getPArrival tbl fid = none) ∧
      (∀ e : ℤ × Option ℚ, tbl.find? (fun e2 => e2.1 == k) = some e →
        getPArrival tbl fid = e.2)) := by
  refine ⟨?_, ?_, ?_⟩
  · unfold getPArrival
    cases hp : pyInt? (stripLeadingZeros fid) <;> simp
  · intro hp; unfold getPArrival; rw [hp]
  · intro k hp
    constructor
    · intro hfind; simp [getPArrival, hp, hfind]
    · intro e hfind; simp [getPArrival, hp, hfind]

/-- Witness for C8: the zero-padded id "0042" parses to key 42, the first
matching row stores epoch 5, and the lookup returns it. -/
theorem getPArrival_cases_witness :
    getPArrival [(42, some 5)] ['0', '0', '4', '2'] = some 5 :=
  (((getPArrival_cases [(42, some 5)] ['0', '0', '4', '2']).2.2 42
    (by decide)).2 (42, some 5)) (by decide)

/-- C9: For any file identifier consisting only of zero digits, arrival
lookup returns an absent result without raising, even when the label table
contains an entry under integer key 0: stripping leading zeros leaves the
empty string, whose integer parse fails. -/
theorem getPArrival_all_zero_digits (tbl : List (ℤ × Option ℚ)) (t : ℚ)
    (fid : List Char) (hz : ∀ c ∈ fid, c = '0') :
    getPArrival ((0, some t) :: tbl) fid = none := by
  have hstrip : stripLeadingZeros fid = [] := by
    unfold stripLeadingZeros
    exact List.dropWhile_eq_nil_iff.mpr fun x hx => by
      rw [hz x hx]; rfl
  simp [getPArrival, hstrip, pyInt?, isDigits]

/-- Witness for C9: the id "000" misses the table entry under key 0. -/
theorem getPArrival_all_zero_digits_witness :
    getPArrival [(0, some 1)] ['0', '0', '0'] = none :=
  getPArrival_all_zero_digits [] 1 ['0', '0', '0'] (by decide)

/-- A list of nonnegative rationals with zero sum is pointwise zero. -/
theorem sum_eq_zero_all_zero {l : List ℚ} (h : ∀ x ∈ l, 0 ≤ x)
    (hs : l.sum = 0) : ∀ x ∈ l, x = 0 := by
  induction l with
  | nil => intro x hx; cases hx
  | cons a t ih =>
    have hta : 0 ≤ a := h a (List.mem_cons_self a t)
    have htt : 0 ≤ t.sum := List.sum_nonneg fun x hx => h x (List.mem_cons_of_mem a hx)
    rw [List.sum_cons] at hs
    have ha : a = 0 := le_antisymm (by linarith) hta
    have ht : t.sum = 0 := by linarith
    intro x hx
    rcases List.mem_cons.mp hx with hx | hx
    · exact hx.trans ha
    · exact ih (fun y hy => h y (List.mem_cons_of_mem a hy)) ht x hx

/-- C5: For every non-empty sample sequence, the loader's normalisation
computes `(x - mean) / std` elementwise when the population standard
deviation is nonzero and `x - mean` when it is zero (so division by zero
is never performed: the dividing branch is guarded by `std ≠ 0`), and a
zero-variance trace yields the constant sequence 0.  The standard
deviation is the nonnegative square root of the population variance,
carried as the parameter `s` with `s * s = variance xs`. -/
theorem normData_spec (xs : List ℚ) (s : ℚ) (hne : xs ≠ [])
    (hs : s * s = variance xs) :
    (s ≠ 0 → normData xs s = xs.map (fun x => (x - mean xs) / s)) ∧
    (s = 0 → normData xs s = xs.map (fun x => x - mean xs) ∧
      normData xs s = List.replicate xs.length 0) := by
  constructor
  · intro h; simp [normData, h]
  · intro h
    subst h
    have hvar : variance xs = 0 := by rw [← hs]; ring
    have hlen : (xs.length : ℚ) ≠ 0 := by
      have h0 : xs.length ≠ 0 := fun h => hne (List.length_eq_zero.mp h)
      exact_mod_cast h0
    have hsum : (xs.map (fun x => (x - mean xs) ^ 2)).sum = 0 := by
      unfold variance at hvar
      rcases div_eq_zero_iff.mp hvar with h | h
      · exact h
      · exact absurd h hlen
    have hzero : ∀ x ∈ xs, x - mean xs = 0 := by
      intro x hx
      have hmem : (x - mean xs) ^ 2 ∈ xs.map (fun x => (x - mean xs) ^ 2) :=
        List.mem_map_of_mem _ hx
      have h2 := sum_eq_zero_all_zero
        (fun y hy => by
          obtain ⟨z, -, rfl⟩ := List.mem_map.mp hy
          positivity)
        hsum _ hmem
      exact pow_eq_zero_iff (two_ne_zero) |>.mp h2
    refine ⟨by simp [normData], ?_⟩
    rw [show normData xs 0 = xs.map (fun x => x - mean xs) by simp [normData]]
    refine List.eq_replicate_iff.mpr ⟨by simp, ?_⟩
    intro b hb
    obtain ⟨x, hx, rfl⟩ := List.mem_map.mp hb
    exact hzero x hx

/-- Witness for C5: the constant trace `[2, 2, 2]` has zero variance, so
its standard deviation is 0 and the normalised samples are the constant
sequence 0. -/
theorem normData_spec_witness :
    normData [2, 2, 2] 0 = List.replicate 3 0 :=
  ((normData_spec [2, 2, 2] 0 (by decide)
    (by norm_num [variance, mean])).2 rfl).2

/-- C7: The trace loader errors if and only if the decode failed, the
decoded trace set is empty, the first trace has zero samples, or the
sampling rate is not positive; a decode exception is re-raised wrapped
with the original cause; and on success it returns the record with the
data, the normalised data, the time axis `times[i] = i / sampling_rate`,
the sampling rate and the start time. -/
theorem loadMseed_contract (fn : String) (s : ℚ)
    (r : Except String (List TraceRec)) :
    ((∃ e, loadMseed fn s r = .error e) ↔
      (∃ c, r = .error c) ∨ r = .ok [] ∨
        ∃ tr rest, r = .ok (tr :: rest) ∧
          (tr.data = [] ∨ tr.sampling_rate ≤ 0)) ∧
    (∀ c, r = .error c → loadMseed fn s r = .error (wrapLoadError fn c)) ∧
    (∀ tr rest, r = .ok (tr :: rest) → tr.data ≠ [] → 0 < tr.sampling_rate →
      loadMseed fn s r = .ok ⟨tr.data, normData tr.data s,
        timesAxis tr.data.length tr.sampling_rate, tr.sampling_rate,
        tr.starttime⟩) ∧
    (∀ (n : ℕ) (rate : ℚ) (i : ℕ) (h : i < (timesAxis n rate).length),
      (timesAxis n rate)[i] = (i : ℚ) / rate) := by
  refine ⟨?_, ?_, ?_, ?_⟩
  · constructor
    · intro he
      rcases r with e | st
      · exact Or.inl ⟨e, rfl⟩
      · rcases st with _ | ⟨tr, rest⟩
        · exact Or.inr (Or.inl rfl)
        · by_cases hd : tr.data = []
          · exact Or.inr (Or.inr ⟨tr, rest, rfl, Or.inl hd⟩)
          · by_cases hrle : tr.sampling_rate ≤ 0
            · exact Or.inr (Or.inr ⟨tr, rest, rfl, Or.inr hrle⟩)
            · exfalso
              obtain ⟨e, he⟩ := he
              have hde : tr.data.isEmpty = false := by
                simp [List.isEmpty_iff, hd]
              simp [loadMseed, hde, hrle] at he
    · intro hcase
      rcases hcase with ⟨c, rfl⟩ | rfl | ⟨tr, rest, rfl, hbad⟩
      · exact ⟨wrapLoadError fn c, rfl⟩
      · exact ⟨wrapLoadError fn "No traces found in MSEED file", rfl⟩
      · rcases hbad with hd | hr
        · exact ⟨wrapLoadError fn "Empty trace data", by
            simp [loadMseed, List.isEmpty_iff, hd]⟩
        · by_cases hd : tr.data.isEmpty
          · exact ⟨wrapLoadError fn "Empty trace data", by simp [loadMseed, hd]⟩
          · exact ⟨wrapLoadError fn
              ("Invalid sampling rate: " ++ toString tr.sampling_rate), by
              simp [loadMseed, hd, hr]⟩
  · intro c hc; subst hc; rfl
  · intro tr rest hr hd hrate
    subst hr
    have hde : tr.data.isEmpty = false := by simp [List.isEmpty_iff, hd]
    simp [loadMseed, hde, not_le.mpr hrate]
  · intro n rate i h
    simp only [timesAxis]
    rw [List.getElem_map, List.getElem_range]

/-- Witness for C7: a successfully decoded single trace with two samples,
unit sampling rate and start time 7 loads into the expected record. -/
theorem loadMseed_contract_witness :
    loadMseed "f" 1 (.ok [⟨[1, 2], 1, 7⟩]) =
      .ok ⟨[1, 2], normData [1, 2] 1, timesAxis 2 1, 1, 7⟩ :=
  (loadMseed_contract "f" 1 (.ok [⟨[1, 2], 1, 7⟩])).2.2.1 ⟨[1, 2], 1, 7⟩ []
    rfl (by decide) (by decide)

/-- Counting invariant of the batch loop: every file increments the loop
counter, and exactly the loaded files contribute a validation result. -/
theorem runBatch_counts (tbl : List (ℤ × Option ℚ)) (env : ℤ → LoadOutcome) :
    ∀ (files : List ℤ) (st : BatchState),
      (files.foldl (analyzeFile tbl env) st).analyzed_files =
          st.analyzed_files + files.length ∧
      (files.foldl (analyzeFile tbl env) st).validation_results.length =
          st.validation_results.length +
            files.countP (fun f => isLoaded (env f)) := by
  intro files
  induction files with
  | nil => intro st; simp
  | cons f rest ih =>
    intro st
    rw [List.foldl_cons]
    obtain ⟨h1, h2⟩ := ih (analyzeFile tbl env st f)
    rw [List.length_cons, List.countP_cons]
    constructor
    · rw [h1]
      cases henv : env f <;> simp [analyzeFile, henv] <;> omega
    · rw [h2]
      cases henv : env f <;> simp [analyzeFile, henv, isLoaded] <;> omega

/-- C3 (amended): After a batch run over any non-empty file-id list, the
summary percentage equals `invalid_count / total_files * 100` where
`total_files` is the nominal number of enumerated file ids — a file whose
trace resource is missing or fails to decode contributes no validation
result but still counts in `total_files` — and such a failure never aborts
the batch: every enumerated file is processed. -/
theorem batchSummary_formula (tbl : List (ℤ × Option ℚ))
    (env : ℤ → LoadOutcome) (files : List ℤ) (h : files ≠ []) :
    batchSummary tbl env files =
      some (((runBatch tbl env files).table_rows : ℚ) /
        (files.length : ℚ) * 100) ∧
    (runBatch tbl env files).analyzed_files = files.length ∧
    (runBatch tbl env files).validation_results.length =
      files.countP (fun f => isLoaded (env f)) := by
  refine ⟨?_, ?_, ?_⟩
  · unfold batchSummary summaryPct
    rw [if_neg (fun h0 => h (List.length_eq_zero.mp h0))]
  · simpa [runBatch] using (runBatch_counts tbl env files ⟨[], 0, 0⟩).1
  · simpa [runBatch] using (runBatch_counts tbl env files ⟨[], 0, 0⟩).2

/-- Witness for C3 (amended): a single enumerated file whose resource is
missing still yields a summary, with the nominal count 1 as denominator. -/
theorem batchSummary_formula_witness :
    batchSummary [] (fun _ => LoadOutcome.missing) [1] =
      some (((runBatch [] (fun _ => LoadOutcome.missing) [1]).table_rows : ℚ) /
        ((1 : ℕ) : ℚ) * 100) :=
  (batchSummary_formula [] (fun _ => LoadOutcome.missing) [1] (by decide)).1

/-- Counterexample for C3 as stated: with files `[1, 2]` where file 1 is
missing and file 2 loads and validates as invalid, the code's summary is
`1/2 * 100 = 50` (denominator = nominal file count), not
`1/1 * 100 = 100` (denominator = number of files successfully analyzed,
i.e. the length of the accumulated result list). -/
theorem batchSummary_counterexample :
    batchSummary [(2, some 5)] envTwoFiles [1, 2] ≠
      some (((runBatch [(2, some 5)] envTwoFiles [1, 2]).table_rows : ℚ) /
        ((runBatch [(2, some 5)] envTwoFiles
          [1, 2]).validation_results.length : ℚ) * 100) := by
  have hget : getPArrival [(2, some 5)] (pyStr 2) = some 5 := by decide
  have hval : (validateLabels [(2, some 5)] (pyStr 2)
      ⟨[0], [0], [0], 1, 0⟩).is_valid = false := by
    norm_num [validateLabels, hget]
  have h1 : (runBatch [(2, some 5)] envTwoFiles [1, 2]).table_rows = 1 := by
    norm_num [runBatch, List.foldl, analyzeFile, envTwoFiles, hval]
  have h2 : (runBatch [(2, some 5)] envTwoFiles
      [1, 2]).validation_results.length = 1 := by
    norm_num [runBatch, List.foldl, analyzeFile, envTwoFiles]
  have h3 : batchSummary [(2, some 5)] envTwoFiles [1, 2] =
      some ((1 : ℚ) / 2 * 100) := by
    unfold batchSummary summaryPct
    rw [h1]
    norm_num
  rw [h3, h1, h2]
  norm_num

/-- C10: When file enumeration discovers zero file ids, finishing the
batch evaluates `invalid_count / total_files * 100` with `total_files = 0`
— the ZeroDivisionError is modelled as the `none` summary — and the
summary is well-defined (is `some`) exactly under the precondition that at
least one file id was enumerated. -/
theorem batchSummary_empty_division (tbl : List (ℤ × Option ℚ))
    (env : ℤ → LoadOutcome) :
    batchSummary tbl env [] = none ∧
    ∀ files : List ℤ, files ≠ [] →
      (batchSummary tbl env files).isSome = true := by
  constructor
  · rfl
  · intro files h
    unfold batchSummary summaryPct
    rw [if_neg (fun h0 => h (List.length_eq_zero.mp h0))]
    rfl

/-- Witness for C10: a one-file batch has a defined summary. -/
theorem batchSummary_empty_division_witness :
    (batchSummary [] (fun _ => LoadOutcome.missing) [5]).isSome = true :=
  (batchSummary_empty_division [] (fun _ => LoadOutcome.missing)).2 [5]
    (by decide)

/-- Taking `min k (length)` elements is the same as taking `k`: `take`
clamps at the length. -/
theorem take_min_length {α : Type} (l : List α) (k : ℕ) :
    l.take (min k l.length) = l.take k := by
  rcases le_total k l.length with h | h
  · rw [min_eq_left h]
  · rw [min_eq_right h, List.take_length, List.take_of_length_le h]

/-- Dropping `min k n` elements from a list of length at most `n` is the
same as dropping `k`: `drop` clamps at the length. -/
theorem drop_min_of_le {α : Type} (l : List α) (k n : ℕ)
    (h : l.length ≤ n) : l.drop (min k n) = l.drop k := by
  rcases le_total k n with h2 | h2
  · rw [min_eq_left h2]
  · rw [min_eq_right h2, List.drop_eq_nil_of_le h,
      List.drop_eq_nil_of_le (le_trans h h2)]

/-- Taking `min k n` elements from a list of length at most `n` is the
same as taking `k`. -/
theorem take_min_of_le {α : Type} (l : List α) (k n : ℕ)
    (h : l.length ≤ n) : l.take (min k n) = l.take k := by
  rcases le_total k n with h2 | h2
  · rw [min_eq_left h2]
  · rw [min_eq_right h2, List.take_of_length_le h,
      List.take_of_length_le (le_trans h h2)]

/-- Resolution of a nonnegative Python slice endpoint: no wrap-around,
just clamping at the length. -/
theorem pyIndex_nonneg (n : ℕ) (i : ℤ) (h : 0 ≤ i) :
    pyIndex n i = min i.toNat n := by
  unfold pyIndex
  rw [if_neg (not_lt.mpr h)]

/-- C4 (amended): the metrics computation uses the reference sample index
`p_sample = int(reference_time_seconds * sampling_rate)` — truncation
toward zero, which agrees with `floor` whenever the product is
nonnegative — and, whenever `p_sample` is nonnegative, the Python slices
produce exactly the clamped windows
`samples[max(0, p_sample-500) : p_sample]` and
`samples[p_sample : min(length, p_sample+500)]` of the spec; no input
raises — near the ends of the trace the windows simply shrink, and the
energy fields are always returned. -/
theorem calculateMetrics_windows (data : List ℚ) (t rate : ℚ)
    (h : 0 ≤ pSampleOf t rate) :
    (0 ≤ t * rate → pSampleOf t rate = ⌊t * rate⌋) ∧
    noiseWindowOf data t rate = specNoiseWindow data (pSampleOf t rate).toNat ∧
    signalWindowOf data t rate = specSignalWindow data (pSampleOf t rate).toNat ∧
    (calculateMetrics data (some t) rate).energy_before =
      some (((noiseWindowOf data t rate).map (fun x => x ^ 2)).sum) ∧
    (calculateMetrics data (some t) rate).energy_after =
      some (((signalWindowOf data t rate).map (fun x => x ^ 2)).sum) := by
  refine ⟨fun h0 => by simp [pSampleOf, ratTrunc, h0], ?_, ?_, rfl, rfl⟩
  · unfold noiseWindowOf pySlice specNoiseWindow
    rw [pyIndex_nonneg _ _ (le_max_left 0 _), pyIndex_nonneg _ _ h]
    rw [show (max 0 (pSampleOf t rate - 500)).toNat =
      (pSampleOf t rate).toNat - 500 from by omega]
    rw [take_min_length]
    exact drop_min_of_le _ _ _ (by rw [List.length_take]; omega)
  · unfold signalWindowOf pySlice specSignalWindow
    rw [pyIndex_nonneg _ _ h,
      pyIndex_nonneg _ _ (le_min (Int.ofNat_nonneg _) (by omega))]
    rw [show (min (data.length : ℤ) (pSampleOf t rate + 500)).toNat =
      min data.length ((pSampleOf t rate).toNat + 500) from by omega]
    rw [min_eq_left (min_le_left _ _)]
    rcases le_or_lt (pSampleOf t rate).toNat data.length with hPn | hPn
    · rw [min_eq_left hPn, List.drop_take]
      have hsub : min data.length ((pSampleOf t rate).toNat + 500) -
          (pSampleOf t rate).toNat =
          min (data.length - (pSampleOf t rate).toNat) 500 := by omega
      rw [hsub, min_comm]
      exact take_min_of_le _ _ _ (le_of_eq (List.length_drop _ _))
    · rw [min_eq_right (le_of_lt hPn)]
      rw [List.drop_eq_nil_of_le (by rw [List.length_take]; omega)]
      rw [List.drop_eq_nil_of_le (by omega)]
      rfl

/-- Witness for C4 (amended): a reference at 2 s with unit sampling rate
on a three-sample trace has nonnegative `p_sample` and the windows match
the spec formulas. -/
theorem calculateMetrics_windows_witness :
    noiseWindowOf [1, 2, 3] 2 1 = specNoiseWindow [1, 2, 3] (pSampleOf 2 1).toNat :=
  (calculateMetrics_windows [1, 2, 3] 2 1 (by
    unfold pSampleOf ratTrunc
    rw [show ((2 : ℚ) * 1) = 2 by norm_num]
    norm_num)).2.1

/-- Counterexample for C4 as stated: the claim's `p_sample =
floor(reference_time_seconds * sampling_rate)` fails at the (reachable)
negative reference time `-1/200` s with sampling rate 100: the code's
`int()` truncation gives 0 while the floor is -1. -/
theorem pSample_not_floor :
    pSampleOf (-1 / 200) 100 ≠ ⌊((-1 / 200 : ℚ) * 100)⌋ := by
  have hprod : ((-1 / 200 : ℚ) * 100) = -1 / 2 := by norm_num
  unfold pSampleOf ratTrunc
  rw [hprod]
  rw [if_neg (by norm_num)]
  have hc : (⌈(-1 / 2 : ℚ)⌉ : ℤ) = 0 := by
    rw [Int.ceil_eq_iff]
    norm_num
  have hf : (⌊(-1 / 2 : ℚ)⌋ : ℤ) = -1 := by
    rw [Int.floor_eq_iff]
    norm_num
  rw [hc, hf]
  decide

/-- C6: Whenever a reference arrival is supplied, the SNR is the finite
value `10 * log10(signal_power / noise_power)` exactly when the noise
power is positive, and otherwise the returned `+∞` sentinel — in
particular for a reference time at sample 0, where the noise window is
empty; the zero-noise case is a returned value, never a raised error. -/
theorem calculateMetrics_snr (data : List ℚ) (t rate : ℚ) :
    (0 < noisePowerOf data t rate →
      (calculateMetrics data (some t) rate).snr =
        some (SnrVal.db (signalPowerOf data t rate) (noisePowerOf data t rate)) ∧
      SnrVal.toDb (SnrVal.db (signalPowerOf data t rate) (noisePowerOf data t rate)) =
        ((10 * Real.logb 10 ((signalPowerOf data t rate : ℝ) /
          (noisePowerOf data t rate : ℝ)) : ℝ) : EReal)) ∧
    (¬ 0 < noisePowerOf data t rate →
      (calculateMetrics data (some t) rate).snr = some SnrVal.posInf ∧
      SnrVal.toDb SnrVal.posInf = (⊤ : EReal)) ∧
    (t = 0 → noiseWindowOf data t rate = [] ∧
      (calculateMetrics data (some t) rate).snr = some SnrVal.posInf) := by
  refine ⟨?_, ?_, ?_⟩
  · intro h
    exact ⟨by simp [calculateMetrics, h], rfl⟩
  · intro h
    exact ⟨by simp [calculateMetrics, h], rfl⟩
  · intro ht
    subst ht
    have hw : noiseWindowOf data 0 rate = [] := by
      norm_num [noiseWindowOf, pSampleOf, ratTrunc, pySlice, pyIndex]
    have hp : noisePowerOf data 0 rate = 0 := by
      simp [noisePowerOf, hw, mean]
    exact ⟨hw, by simp [calculateMetrics, hp]⟩

/-- Witness for C6: a reference time at sample 0 yields an empty noise
window and the `+∞` SNR sentinel. -/
theorem calculateMetrics_snr_witness :
    (calculateMetrics [1, 2] (some 0) 100).snr = some SnrVal.posInf :=
  ((calculateMetrics_snr [1, 2] 0 100).2.2 rfl).2
